import Mathlib

/-!
Shallow embedding of the ML predictor facade in
`src/backend/app/ml/predictor.py` (class MLPredictor and its fallback
models).  Python floats are modelled as rationals; the exact arithmetic
of the fallback models (divisions, min/max clamps) carries over
verbatim.  Trained artifacts loaded from disk are opaque pickles, so
they are modelled as values of wrapper structures whose behaviour is a
parameter; the fallback implementations, which are in the source, are
embedded concretely.  The pseudo-random draw `np.random.random()` used
for the confidence value is passed as an explicit parameter `r` with
`0 <= r < 1`.
-/

namespace MLPred

/-- The fixed ordered 6-tuple of network metrics (Feature Contract).
Index mapping from the source: row[0]=bandwidth, row[1]=throughput,
row[2]=congestion, row[3]=packet_loss, row[4]=latency, row[5]=jitter. -/
structure Features where
  bandwidth : ℚ
  throughput : ℚ
  congestion : ℚ
  packet_loss : ℚ
  latency : ℚ
  jitter : ℚ
deriving DecidableEq

/-- Validity of a feature vector per the spec's Feature Contract:
all non-negative, congestion and packet_loss in [0,100]. -/
def Features.valid (f : Features) : Prop :=
  0 ≤ f.bandwidth ∧ 0 ≤ f.throughput ∧ 0 ≤ f.congestion ∧
  0 ≤ f.packet_loss ∧ 0 ≤ f.latency ∧ 0 ≤ f.jitter ∧
  f.congestion ≤ 100 ∧ f.packet_loss ≤ 100

instance (f : Features) : Decidable f.valid := by
  unfold Features.valid; infer_instance

/-- The vector in its fixed source order. -/
def Features.toList (f : Features) : List ℚ :=
  [f.bandwidth, f.throughput, f.congestion, f.packet_loss, f.latency, f.jitter]

/-- Default feature names (predictor.py lines 41-44 and 153-156). -/
def defaultFeatureNames : List String :=
  ["bandwidth", "throughput", "congestion", "packet_loss", "latency", "jitter"]

/-! ### Fallback model functions (predictor.py lines 92-140) -/

/-- FallbackSLAPredictor.predict (lines 93-103):
1 if latency > 10 or packet_loss > 5 or throughput < 1 else 0. -/
def fallbackSLApredict (f : Features) : ℤ :=
  if 10 < f.latency ∨ 5 < f.packet_loss ∨ f.throughput < 1 then 1 else 0

/-- FallbackSLAPredictor.predict_proba (lines 105-117): returns the pair
[1 - risk, risk] for the single input row. -/
def fallbackSLApredictProba (f : Features) : ℚ × ℚ :=
  let latency_risk := min (f.latency / 20) 1
  let packet_loss_risk := min (f.packet_loss / 10) 1
  let throughput_risk := max 0 ((2 - f.throughput) / 2)
  let risk := (latency_risk + packet_loss_risk + throughput_risk) / 3
  (1 - risk, risk)

/-- FallbackAnomalyDetector.predict (lines 120-130):
-1 (anomaly) if latency > 20 or packet_loss > 15 or jitter > 5, else 1. -/
def fallbackAnomPredict (f : Features) : ℤ :=
  if 20 < f.latency ∨ 15 < f.packet_loss ∨ 5 < f.jitter then -1 else 1

/-- FallbackAnomalyDetector.decision_function (lines 132-140):
score = 1 - (latency/30 + packet_loss/20 + jitter/10)/3, clamped to [-1,1]. -/
def fallbackAnomDecision (f : Features) : ℚ :=
  let score := 1 - (f.latency / 30 + f.packet_loss / 20 + f.jitter / 10) / 3
  max (-1) (min 1 score)

/-! ### Opaque model wrappers

A trained artifact is an opaque pickle; its behaviour is a function
parameter.  `Except Unit` models a Python exception raised by the
underlying model call.  An absent optional method (`hasattr` check in
the source) is `Option.none`. -/

/-- An SLA classifier as used by predict_sla_violation: a predict method
and an optional predict_proba method (hasattr check, line 181). -/
structure SLAModelImpl where
  predictFn : Features → Except Unit ℤ
  predictProbaFn : Option (Features → Except Unit (ℚ × ℚ))

/-- An anomaly detector: a predict method and an optional
decision_function method (hasattr check, line 224). -/
structure AnomModelImpl where
  predictFn : Features → Except Unit ℤ
  decisionFn : Option (Features → Except Unit ℚ)

/-- A SHAP explainer: shap_values method and expected_value attribute. -/
structure ShapModelImpl where
  shapValuesFn : Features → Except Unit (List ℚ)
  expectedValue : ℚ

/-- A feature scaler with a transform method. -/
structure ScalerImpl where
  transformFn : Features → Except Unit Features

/-- The fallback SLA predictor object installed by
_create_fallback_models (line 143). -/
def fallbackSLAModel : SLAModelImpl :=
  { predictFn := fun f => .ok (fallbackSLApredict f)
    predictProbaFn := some (fun f => .ok (fallbackSLApredictProba f)) }

/-- The fallback anomaly detector object (line 144). -/
def fallbackAnomModel : AnomModelImpl :=
  { predictFn := fun f => .ok (fallbackAnomPredict f)
    decisionFn := some (fun f => .ok (fallbackAnomDecision f)) }

/-- The fallback identity scaler (lines 147-151). -/
def fallbackScalerImpl : ScalerImpl :=
  { transformFn := fun f => .ok f }

/-! ### Predictor state (the MLPredictor instance / ModelBundle) -/

/-- The mutable state of an MLPredictor instance.  The Python dicts
`self.models` and `self.scalers` are split into typed option fields plus
key lists that record the dicts' keys in insertion order (Python dicts
preserve insertion order; overwriting an existing key keeps its
position). -/
structure PredState where
  model_dir : String
  modelKeys : List String
  sla : Option SLAModelImpl
  anom : Option AnomModelImpl
  shap : Option ShapModelImpl
  scalerKeys : List String
  scaler : Option ScalerImpl
  feature_names : List String
  models_loaded : Bool

/-- MLPredictor.__init__ (lines 18-23). -/
def initState (dir : String) : PredState :=
  { model_dir := dir, modelKeys := [], sla := none, anom := none,
    shap := none, scalerKeys := [], scaler := none,
    feature_names := [], models_loaded := false }

/-- Insert a key into a dict-key list: no change when present (the dict
overwrite keeps the insertion position), appended when absent. -/
def insertKey (k : String) (l : List String) : List String :=
  if k ∈ l then l else l ++ [k]

/-! ### Disk contents consumed by load_models -/

/-- The state of one artifact file on disk: absent, present with a
loadable value, or corrupt (joblib.load raises). -/
inductive FileSt (α : Type) where
  | absent : FileSt α
  | corrupt : FileSt α
  | present : α → FileSt α

def FileSt.isCorrupt {α : Type} : FileSt α → Bool
  | .corrupt => true
  | _ => false

def FileSt.isPresent {α : Type} : FileSt α → Bool
  | .present _ => true
  | _ => false

/-- The model directory as load_models sees it. -/
structure Disk where
  dirExists : Bool
  featureNamesFile : FileSt (List String)
  slaFile : FileSt SLAModelImpl
  anomFile : FileSt AnomModelImpl
  shapFile : FileSt ShapModelImpl
  scalerFile : FileSt ScalerImpl

/-- True when load_models would take a path that installs the fallback
bank: missing directory, a loading exception, or no model file found. -/
def Disk.triggersFallback (d : Disk) : Bool :=
  !d.dirExists ||
  d.featureNamesFile.isCorrupt || d.slaFile.isCorrupt ||
  d.anomFile.isCorrupt || d.shapFile.isCorrupt || d.scalerFile.isCorrupt ||
  (!d.slaFile.isPresent && !d.anomFile.isPresent && !d.shapFile.isPresent)

/-! ### load_models and _create_fallback_models (lines 25-163) -/

/-- MLPredictor._create_fallback_models (lines 82-163): installs the
rule-based models (overwriting the sla_predictor and anomaly_detector
entries), the identity scaler, the default feature names, and sets
models_loaded.  The inner try can only fail on an sklearn import error,
an environment condition outside this model, so creation always
succeeds here.  The shap_explainer entry is not touched. -/
def create_fallback_models (s : PredState) : PredState :=
  { s with
    sla := some fallbackSLAModel
    anom := some fallbackAnomModel
    modelKeys := insertKey "anomaly_detector" (insertKey "sla_predictor" s.modelKeys)
    scaler := some fallbackScalerImpl
    scalerKeys := insertKey "standard" s.scalerKeys
    feature_names := defaultFeatureNames
    models_loaded := true }

/-- One try-block step: Except.error carries the state at the moment the
exception is raised (partial updates survive into the except handler). -/
def loadFeatureNamesStep (d : Disk) (s : PredState) : Except PredState PredState :=
  match d.featureNamesFile with
  | .corrupt => .error s
  | .present l => .ok { s with feature_names := l }
  | .absent => .ok { s with feature_names := defaultFeatureNames }

def loadSlaStep (d : Disk) (s : PredState) : Except PredState PredState :=
  match d.slaFile with
  | .corrupt => .error s
  | .present m => .ok { s with sla := some m, modelKeys := insertKey "sla_predictor" s.modelKeys }
  | .absent => .ok s

def loadAnomStep (d : Disk) (s : PredState) : Except PredState PredState :=
  match d.anomFile with
  | .corrupt => .error s
  | .present m => .ok { s with anom := some m, modelKeys := insertKey "anomaly_detector" s.modelKeys }
  | .absent => .ok s

def loadShapStep (d : Disk) (s : PredState) : Except PredState PredState :=
  match d.shapFile with
  | .corrupt => .error s
  | .present m => .ok { s with shap := some m, modelKeys := insertKey "shap_explainer" s.modelKeys }
  | .absent => .ok s

def loadScalerStep (d : Disk) (s : PredState) : Except PredState PredState :=
  match d.scalerFile with
  | .corrupt => .error s
  | .present m => .ok { s with scaler := some m, scalerKeys := insertKey "standard" s.scalerKeys }
  | .absent => .ok s

/-- MLPredictor.load_models (lines 25-80).  A missing directory goes
straight to the fallback bank; a loading exception anywhere in the try
block falls into the except handler, which installs the fallback bank on
the partially-updated state; if after the try block the models dict is
empty the fallback bank is installed; otherwise models_loaded is set. -/
def load_models (d : Disk) (s : PredState) : PredState :=
  if d.dirExists = false then create_fallback_models s
  else
    match loadFeatureNamesStep d s with
    | .error sE => create_fallback_models sE
    | .ok s1 =>
      match loadSlaStep d s1 with
      | .error sE => create_fallback_models sE
      | .ok s2 =>
        match loadAnomStep d s2 with
        | .error sE => create_fallback_models sE
        | .ok s3 =>
          match loadShapStep d s3 with
          | .error sE => create_fallback_models sE
          | .ok s4 =>
            match loadScalerStep d s4 with
            | .error sE => create_fallback_models sE
            | .ok s5 =>
              if s5.modelKeys = [] then create_fallback_models s5
              else { s5 with models_loaded := true }

/-! ### Serving methods (lines 165-327) -/

/-- A Python exception escaping a serving method: the models-not-loaded
ValueError guard, or a re-raised prediction-time error. -/
inductive PredErr where
  | notLoaded : PredErr
  | predictionError : PredErr
deriving DecidableEq

/-- Result dict of predict_sla_violation (lines 190-195). -/
structure SLAResult where
  prediction : ℤ
  probability : ℚ
  confidence : ℚ
  model_version : String
deriving DecidableEq

/-- The branch structure of _generate_anomaly_explanation
(lines 294-318), with the formatted message text abstracted to which
conditions triggered. -/
inductive ExplanationMsg where
  | normalParams : ExplanationMsg
  | issues (highLatency highPacketLoss highJitter highCongestion lowThroughput : Bool) : ExplanationMsg
  | anomalousPattern : ExplanationMsg
deriving DecidableEq

/-- Result dict of detect_anomaly (lines 234-238). -/
structure AnomResult where
  is_anomaly : Bool
  anomaly_score : ℚ
  explanation : ExplanationMsg
deriving DecidableEq

/-- Result dict of explain_prediction (lines 259-263, 288-292). -/
structure Explanation where
  feature_importance : List (String × ℚ)
  shap_values : List ℚ
  base_value : ℚ
deriving DecidableEq

/-- MLPredictor._generate_anomaly_explanation (lines 294-318): the
unscaled features are checked against fixed thresholds when the vector
was flagged anomalous. -/
def generate_anomaly_explanation (f : Features) (isAnom : Bool) : ExplanationMsg :=
  if isAnom = false then .normalParams
  else
    let hl : Bool := decide (15 < f.latency)
    let hp : Bool := decide (5 < f.packet_loss)
    let hj : Bool := decide (5 < f.jitter)
    let hc : Bool := decide (80 < f.congestion)
    let lt : Bool := decide (f.throughput < f.bandwidth * 0.3)
    if hl || hp || hj || hc || lt then .issues hl hp hj hc lt
    else .anomalousPattern

/-- MLPredictor.predict_sla_violation (lines 165-199).  `r` is the
np.random.random() draw in [0,1) used for the simulated confidence.
A prediction-time exception from the model is re-raised (line 199). -/
def predict_sla_violation (st : PredState) (f : Features) (r : ℚ) : Except PredErr SLAResult :=
  if st.models_loaded = false then .error .notLoaded
  else
    match st.sla with
    | none => .error .notLoaded
    | some model =>
      match model.predictFn f with
      | .error _ => .error .predictionError
      | .ok prediction =>
        match model.predictProbaFn with
        | some probaFn =>
          match probaFn f with
          | .error _ => .error .predictionError
          | .ok probs =>
            .ok { prediction := prediction, probability := probs.2,
                  confidence := 0.85 + r * 0.1, model_version := "v1.0" }
        | none =>
          .ok { prediction := prediction, probability := (prediction : ℚ),
                confidence := 0.85 + r * 0.1, model_version := "v1.0" }

/-- MLPredictor.detect_anomaly (lines 201-242).  The scaler (when
present) is applied before both predict and decision_function; the
explanation is generated from the unscaled features; any
prediction-time exception is re-raised (line 242). -/
def detect_anomaly (st : PredState) (f : Features) : Except PredErr AnomResult :=
  if st.models_loaded = false then .error .notLoaded
  else
    match st.anom with
    | none => .error .notLoaded
    | some model =>
      match (match st.scaler with
             | some sc => sc.transformFn f
             | none => .ok f) with
      | .error _ => .error .predictionError
      | .ok scaled =>
        match model.predictFn scaled with
        | .error _ => .error .predictionError
        | .ok pred =>
          let isAnom : Bool := decide (pred = -1)
          match model.decisionFn with
          | some df =>
            match df scaled with
            | .error _ => .error .predictionError
            | .ok score =>
              .ok { is_anomaly := isAnom,
                    anomaly_score := max 0 ((1 - score) / 2),
                    explanation := generate_anomaly_explanation f isAnom }
          | none =>
            .ok { is_anomaly := isAnom,
                  anomaly_score := if isAnom then 0.8 else 0.2,
                  explanation := generate_anomaly_explanation f isAnom }

/-- The hand-assigned importance weights of
_generate_simple_explanation (line 275). -/
def importanceWeights : List ℚ := [0.1, 0.15, 0.2, 0.25, 0.25, 0.05]

/-- MLPredictor._generate_simple_explanation (lines 272-292):
contribution of feature i is min(value_i/10, 1) * weight_i; base value
0.5. -/
def generate_simple_explanation (names : List String) (vals : List ℚ) : Explanation :=
  let contribs := ((names.zip importanceWeights).zip vals).map
    (fun p => (p.1.1, min (p.2 / 10) 1 * p.1.2))
  { feature_importance := contribs,
    shap_values := contribs.map (fun p => p.2),
    base_value := 0.5 }

/-- MLPredictor.explain_prediction (lines 244-270).  Note the except
handler (lines 268-270): a prediction-time error from the SHAP explainer
is swallowed and replaced by the simple explanation, not re-raised. -/
def explain_prediction (st : PredState) (f : Features) : Except PredErr Explanation :=
  if st.models_loaded = false then .error .notLoaded
  else
    match st.shap with
    | some ex =>
      match ex.shapValuesFn f with
      | .ok sv =>
        .ok { feature_importance := st.feature_names.zip sv,
              shap_values := sv, base_value := ex.expectedValue }
      | .error _ => .ok (generate_simple_explanation st.feature_names f.toList)
    | none => .ok (generate_simple_explanation st.feature_names f.toList)

/-- Output of MLPredictor.get_model_info (lines 320-327). -/
structure ModelInfoOut where
  models_loaded : Bool
  available_models : List String
  feature_names : List String
  model_directory : String
deriving DecidableEq

/-- MLPredictor.get_model_info (lines 320-327). -/
def get_model_info (s : PredState) : ModelInfoOut :=
  { models_loaded := s.models_loaded, available_models := s.modelKeys,
    feature_names := s.feature_names, model_directory := s.model_dir }

end MLPred

namespace MLPred

/-! ### Helper lemmas -/

/-- On a fallback bundle, predict_sla_violation reduces to the fallback
rule prediction and risk probability. -/
theorem predict_fallback_eq (s0 : PredState) (f : Features) (r : ℚ) :
    predict_sla_violation (create_fallback_models s0) f r =
      .ok { prediction := fallbackSLApredict f,
            probability := (fallbackSLApredictProba f).2,
            confidence := 0.85 + r * 0.1, model_version := "v1.0" } := rfl

/-- On a fallback bundle, detect_anomaly reduces to the fallback rule
flag and the transformed clamped score. -/
theorem detect_fallback_eq (s0 : PredState) (f : Features) :
    detect_anomaly (create_fallback_models s0) f =
      .ok { is_anomaly := decide (fallbackAnomPredict f = -1),
            anomaly_score := max 0 ((1 - fallbackAnomDecision f) / 2),
            explanation := generate_anomaly_explanation f
              (decide (fallbackAnomPredict f = -1)) } := rfl

/-- The fallback decision function is at least -1 (the clamp). -/
theorem fallbackAnomDecision_ge (f : Features) : (-1 : ℚ) ≤ fallbackAnomDecision f := by
  unfold fallbackAnomDecision
  exact le_max_left _ _

/-- When no SHAP explainer is in the bundle, explain_prediction returns
the simple heuristic explanation over the bundle's feature names. -/
theorem explain_shap_none (st : PredState) (f : Features)
    (h1 : st.models_loaded = true) (h2 : st.shap = none) :
    explain_prediction st f =
      .ok (generate_simple_explanation st.feature_names f.toList) := by
  unfold explain_prediction
  rw [h1, h2]
  rfl

end MLPred

namespace MLPred

/-- Claim C1, counterexample: on the fallback bundle the vector
(0,10,0,0,11,0) is valid, gets prediction label 1 (latency 11 > 10 trips
the rule), yet its probability is 11/60 < 1/2, so the label does not
coincide with the probability crossing the 0.5 threshold. -/
theorem C1_counterexample :
    (Features.valid ⟨0, 10, 0, 0, 11, 0⟩) ∧
    predict_sla_violation (create_fallback_models (initState "backend/app/ml/models"))
        ⟨0, 10, 0, 0, 11, 0⟩ 0 =
      .ok { prediction := 1, probability := 11/60, confidence := 17/20,
            model_version := "v1.0" } ∧
    (11/60 : ℚ) < 1/2 := by
  refine ⟨by decide, ?_, by norm_num⟩
  rw [predict_fallback_eq]
  simp only [Except.ok.injEq, SLAResult.mk.injEq]
  refine ⟨?_, ?_, by norm_num, trivial⟩
  · norm_num [fallbackSLApredict]
  · norm_num [fallbackSLApredictProba, min_def, max_def]

/-- Claim C1, amended: for every valid feature vector the fallback-bundle
predict_sla_violation returns a probability in [0,1] and a label in
{0,1}; the label is 1 exactly when the fallback rule thresholds fire
(latency > 10 or packet_loss > 5 or throughput < 1), not when the
probability crosses 0.5. -/
theorem C1_amended (s0 : PredState) (f : Features) (r : ℚ) (hv : f.valid) :
    ∃ res : SLAResult,
      predict_sla_violation (create_fallback_models s0) f r = .ok res ∧
      (res.prediction = 0 ∨ res.prediction = 1) ∧
      0 ≤ res.probability ∧ res.probability ≤ 1 ∧
      (res.prediction = 1 ↔ (10 < f.latency ∨ 5 < f.packet_loss ∨ f.throughput < 1)) := by
  obtain ⟨hb, ht, hc, hp, hl, hj, hcu, hpu⟩ := hv
  refine ⟨_, predict_fallback_eq s0 f r, ?_, ?_, ?_, ?_⟩
  · show fallbackSLApredict f = 0 ∨ fallbackSLApredict f = 1
    unfold fallbackSLApredict
    split
    · exact Or.inr rfl
    · exact Or.inl rfl
  · show 0 ≤ (fallbackSLApredictProba f).2
    unfold fallbackSLApredictProba
    have h1 : (0:ℚ) ≤ min (f.latency / 20) 1 := le_min (by positivity) (by norm_num)
    have h2 : (0:ℚ) ≤ min (f.packet_loss / 10) 1 := le_min (by positivity) (by norm_num)
    have h3 : (0:ℚ) ≤ max 0 ((2 - f.throughput) / 2) := le_max_left 0 _
    simp only
    linarith
  · show (fallbackSLApredictProba f).2 ≤ 1
    unfold fallbackSLApredictProba
    have h1 : min (f.latency / 20) 1 ≤ 1 := min_le_right _ _
    have h2 : min (f.packet_loss / 10) 1 ≤ 1 := min_le_right _ _
    have h3 : max 0 ((2 - f.throughput) / 2) ≤ 1 := max_le (by norm_num) (by linarith)
    simp only
    linarith
  · show fallbackSLApredict f = 1 ↔ _
    unfold fallbackSLApredict
    split
    · rename_i hcond
      simp [hcond]
    · rename_i hcond
      simp [hcond]

/-- Claim C1, witness for the amended theorem at the low-risk spec
example (100,20,10,1,5,0.5). -/
theorem C1_witness :
    Features.valid ⟨100, 20, 10, 1, 5, 1⟩ ∧
    (∃ res : SLAResult,
      predict_sla_violation (create_fallback_models (initState "m"))
          ⟨100, 20, 10, 1, 5, 1⟩ 0 = .ok res ∧
      (res.prediction = 0 ∨ res.prediction = 1) ∧
      0 ≤ res.probability ∧ res.probability ≤ 1 ∧
      (res.prediction = 1 ↔ ((10:ℚ) < 5 ∨ (5:ℚ) < 1 ∨ (20:ℚ) < 1))) :=
  ⟨by decide, C1_amended (initState "m") ⟨100, 20, 10, 1, 5, 1⟩ 0 (by decide)⟩

/-- Claim C2: on the fallback bundle (identity scaler), for every valid
feature vector detect_anomaly returns an anomaly score equal to
max(0, (1 - raw)/2) where raw is the decision_function value on the
(identically) scaled vector, and the score lies in [0,1]. -/
theorem C2_score_transform (s0 : PredState) (f : Features) (_hv : f.valid) :
    ∃ res : AnomResult,
      detect_anomaly (create_fallback_models s0) f = .ok res ∧
      res.anomaly_score = max 0 ((1 - fallbackAnomDecision f) / 2) ∧
      0 ≤ res.anomaly_score ∧ res.anomaly_score ≤ 1 := by
  refine ⟨_, detect_fallback_eq s0 f, rfl, le_max_left 0 _, ?_⟩
  have h1 : (-1 : ℚ) ≤ fallbackAnomDecision f := fallbackAnomDecision_ge f
  exact max_le (by norm_num) (by linarith)

/-- Claim C2, witness at the vector (50,5,90,8,25,6) from the spec's
high-risk end-to-end example. -/
theorem C2_witness :
    Features.valid ⟨50, 5, 90, 8, 25, 6⟩ ∧
    (∃ res : AnomResult,
      detect_anomaly (create_fallback_models (initState "m")) ⟨50, 5, 90, 8, 25, 6⟩ = .ok res ∧
      res.anomaly_score = max 0 ((1 - fallbackAnomDecision ⟨50, 5, 90, 8, 25, 6⟩) / 2) ∧
      0 ≤ res.anomaly_score ∧ res.anomaly_score ≤ 1) :=
  ⟨by decide, C2_score_transform (initState "m") ⟨50, 5, 90, 8, 25, 6⟩ (by decide)⟩

end MLPred

namespace MLPred

/-- Claim C3, counterexample: under the fallback rules the valid vector
(0,0,0,0,0,6) is flagged anomalous (jitter 6 > 5) with score 1/10, while
the valid vector (0,0,0,0,20,0) is not flagged (latency 20 is not > 20)
yet scores 1/9 > 1/10; so the anomaly flag does not correlate
monotonically with the score and no fixed score threshold separates
flagged from unflagged vectors. -/
theorem C3_counterexample :
    Features.valid ⟨0, 0, 0, 0, 0, 6⟩ ∧ Features.valid ⟨0, 0, 0, 0, 20, 0⟩ ∧
    detect_anomaly (create_fallback_models (initState "m")) ⟨0, 0, 0, 0, 0, 6⟩ =
      .ok { is_anomaly := true, anomaly_score := 1/10,
            explanation := .issues false false true false false } ∧
    detect_anomaly (create_fallback_models (initState "m")) ⟨0, 0, 0, 0, 20, 0⟩ =
      .ok { is_anomaly := false, anomaly_score := 1/9,
            explanation := .normalParams } ∧
    (1/10 : ℚ) < 1/9 := by
  refine ⟨by decide, by decide, ?_, ?_, by norm_num⟩
  · rw [detect_fallback_eq]
    have hp : fallbackAnomPredict ⟨0, 0, 0, 0, 0, 6⟩ = -1 := by
      norm_num [fallbackAnomPredict]
    simp only [Except.ok.injEq, AnomResult.mk.injEq, hp]
    refine ⟨by norm_num, ?_, ?_⟩
    · norm_num [fallbackAnomDecision, min_def, max_def]
    · norm_num [generate_anomaly_explanation]
  · rw [detect_fallback_eq]
    have hp : fallbackAnomPredict ⟨0, 0, 0, 0, 20, 0⟩ = 1 := by
      norm_num [fallbackAnomPredict]
    simp only [Except.ok.injEq, AnomResult.mk.injEq, hp]
    refine ⟨by norm_num, ?_, ?_⟩
    · norm_num [fallbackAnomDecision, min_def, max_def]
    · norm_num [generate_anomaly_explanation]

/-- Claim C3, amended: under the fallback rule set, both the anomaly
flag and the anomaly score of detect_anomaly are componentwise monotone
in the three thresholded metrics (latency, packet_loss, jitter): raising
none of them can lower the score or clear the flag.  The global
flag-score correlation of the original claim fails (see the
counterexample). -/
theorem C3_amended (s0 : PredState) (f g : Features)
    (h1 : f.latency ≤ g.latency) (h2 : f.packet_loss ≤ g.packet_loss)
    (h3 : f.jitter ≤ g.jitter) :
    ∃ rf rg : AnomResult,
      detect_anomaly (create_fallback_models s0) f = .ok rf ∧
      detect_anomaly (create_fallback_models s0) g = .ok rg ∧
      rf.anomaly_score ≤ rg.anomaly_score ∧
      (rf.is_anomaly = true → rg.is_anomaly = true) := by
  refine ⟨_, _, detect_fallback_eq s0 f, detect_fallback_eq s0 g, ?_, ?_⟩
  · show max 0 ((1 - fallbackAnomDecision f) / 2) ≤ max 0 ((1 - fallbackAnomDecision g) / 2)
    have hd : fallbackAnomDecision g ≤ fallbackAnomDecision f := by
      unfold fallbackAnomDecision
      refine max_le_max le_rfl (min_le_min le_rfl ?_)
      linarith
    refine max_le_max le_rfl ?_
    linarith
  · show decide (fallbackAnomPredict f = -1) = true → decide (fallbackAnomPredict g = -1) = true
    simp only [decide_eq_true_eq]
    unfold fallbackAnomPredict
    split
    · rename_i hcf
      intro _
      split
      · rfl
      · rename_i hcg
        exact absurd (by
          rcases hcf with h | h | h
          · exact Or.inl (lt_of_lt_of_le h h1)
          · exact Or.inr (Or.inl (lt_of_lt_of_le h h2))
          · exact Or.inr (Or.inr (lt_of_lt_of_le h h3))) hcg
    · intro h
      exact absurd h (by decide)

/-- Claim C3, witness for the amended monotonicity at the pair
(0,0,0,0,0,6) and (0,0,0,1,2,7). -/
theorem C3_witness :
    ((0:ℚ) ≤ 2 ∧ (0:ℚ) ≤ 1 ∧ (6:ℚ) ≤ 7) ∧
    (∃ rf rg : AnomResult,
      detect_anomaly (create_fallback_models (initState "m")) ⟨0, 0, 0, 0, 0, 6⟩ = .ok rf ∧
      detect_anomaly (create_fallback_models (initState "m")) ⟨0, 0, 0, 1, 2, 7⟩ = .ok rg ∧
      rf.anomaly_score ≤ rg.anomaly_score ∧
      (rf.is_anomaly = true → rg.is_anomaly = true)) :=
  ⟨⟨by norm_num, by norm_num, by norm_num⟩,
    C3_amended (initState "m") ⟨0, 0, 0, 0, 0, 6⟩ ⟨0, 0, 0, 1, 2, 7⟩
      (by norm_num) (by norm_num) (by norm_num)⟩

end MLPred

namespace MLPred

/-- Claim C6: on the fallback path (no SHAP explainer in the bundle),
explain_prediction returns contributions keyed by exactly the six
feature names, each equal to min(value/10, 1) times the hand-assigned
weights (0.10, 0.15, 0.20, 0.25, 0.25, 0.05), with base value 0.5, and
the weights sum to 1. -/
theorem C6_fallback_explanation (s0 : PredState) (f : Features)
    (hs : s0.shap = none) (_hv : f.valid) :
    ∃ e : Explanation,
      explain_prediction (create_fallback_models s0) f = .ok e ∧
      e.feature_importance =
        [("bandwidth", min (f.bandwidth / 10) 1 * 0.1),
         ("throughput", min (f.throughput / 10) 1 * 0.15),
         ("congestion", min (f.congestion / 10) 1 * 0.2),
         ("packet_loss", min (f.packet_loss / 10) 1 * 0.25),
         ("latency", min (f.latency / 10) 1 * 0.25),
         ("jitter", min (f.jitter / 10) 1 * 0.05)] ∧
      e.feature_importance.map Prod.fst = defaultFeatureNames ∧
      e.base_value = 0.5 ∧
      importanceWeights.sum = 1 := by
  have h1 : (create_fallback_models s0).models_loaded = true := rfl
  have h2 : (create_fallback_models s0).shap = none := hs
  refine ⟨_, explain_shap_none _ f h1 h2, ?_, ?_, rfl, by norm_num [importanceWeights]⟩
  · rfl
  · rfl

/-- Claim C6, witness at the vector (1,2,3,4,5,6). -/
theorem C6_witness :
    (initState "m").shap = none ∧ Features.valid ⟨1, 2, 3, 4, 5, 6⟩ ∧
    (∃ e : Explanation,
      explain_prediction (create_fallback_models (initState "m")) ⟨1, 2, 3, 4, 5, 6⟩ = .ok e ∧
      e.feature_importance =
        [("bandwidth", min ((1:ℚ) / 10) 1 * 0.1),
         ("throughput", min ((2:ℚ) / 10) 1 * 0.15),
         ("congestion", min ((3:ℚ) / 10) 1 * 0.2),
         ("packet_loss", min ((4:ℚ) / 10) 1 * 0.25),
         ("latency", min ((5:ℚ) / 10) 1 * 0.25),
         ("jitter", min ((6:ℚ) / 10) 1 * 0.05)] ∧
      e.feature_importance.map Prod.fst = defaultFeatureNames ∧
      e.base_value = 0.5 ∧
      importanceWeights.sum = 1) :=
  ⟨rfl, by decide, C6_fallback_explanation (initState "m") ⟨1, 2, 3, 4, 5, 6⟩ rfl (by decide)⟩

/-- The confidence reported by predict_sla_violation is always
0.85 + r * 0.1 where r is the pseudo-random draw, in every branch
(trained or fallback alike). -/
theorem confidence_formula (st : PredState) (f : Features) (r : ℚ) (res : SLAResult)
    (h : predict_sla_violation st f r = .ok res) : res.confidence = 0.85 + r * 0.1 := by
  unfold predict_sla_violation at h
  repeat' split at h
  all_goals try (simp only [Except.ok.injEq] at h; subst h; rfl)
  all_goals exact Except.noConfusion h

end MLPred

namespace MLPred

/-- Claim C7, counterexample: with the fallback models active, the
confidence is not a fixed value: the same state and feature vector give
confidence 17/20 for random draw 0 and 9/10 for random draw 1/2. -/
theorem C7_counterexample :
    predict_sla_violation (create_fallback_models (initState "m")) ⟨0, 10, 0, 0, 0, 0⟩ 0 =
      .ok { prediction := 0, probability := 0, confidence := 17/20, model_version := "v1.0" } ∧
    predict_sla_violation (create_fallback_models (initState "m")) ⟨0, 10, 0, 0, 0, 0⟩ (1/2) =
      .ok { prediction := 0, probability := 0, confidence := 9/10, model_version := "v1.0" } ∧
    (17/20 : ℚ) ≠ 9/10 := by
  refine ⟨?_, ?_, by norm_num⟩ <;>
  · rw [predict_fallback_eq]
    simp only [Except.ok.injEq, SLAResult.mk.injEq]
    refine ⟨?_, ?_, by norm_num, trivial⟩
    · norm_num [fallbackSLApredict]
    · norm_num [fallbackSLApredictProba, min_def, max_def]

/-- Claim C7, amended: whatever models are loaded (trained or fallback),
every successful predict_sla_violation call reports a confidence equal
to 0.85 + r * 0.1 for the pseudo-random draw r in [0,1), hence lying in
[0.85, 0.95); the fallback does not report a fixed value but uses the
same pseudo-random formula. -/
theorem C7_amended (st : PredState) (f : Features) (r : ℚ) (res : SLAResult)
    (hr0 : 0 ≤ r) (hr1 : r < 1)
    (h : predict_sla_violation st f r = .ok res) :
    res.confidence = 0.85 + r * 0.1 ∧ 17/20 ≤ res.confidence ∧ res.confidence < 19/20 := by
  have hc := confidence_formula st f r res h
  rw [hc]
  refine ⟨rfl, ?_, ?_⟩
  · nlinarith
  · nlinarith

/-- Claim C7, witness for the amended theorem at the fallback bundle,
feature vector (0,10,0,0,0,0) and random draw 1/2. -/
theorem C7_witness :
    ((0:ℚ) ≤ 1/2 ∧ (1/2:ℚ) < 1) ∧
    (∃ res : SLAResult,
      predict_sla_violation (create_fallback_models (initState "m")) ⟨0, 10, 0, 0, 0, 0⟩ (1/2) =
        .ok res ∧
      res.confidence = 0.85 + (1/2) * 0.1 ∧ 17/20 ≤ res.confidence ∧ res.confidence < 19/20) := by
  refine ⟨⟨by norm_num, by norm_num⟩, ?_⟩
  refine ⟨_, predict_fallback_eq (initState "m") ⟨0, 10, 0, 0, 0, 0⟩ (1/2), ?_⟩
  exact C7_amended (create_fallback_models (initState "m")) ⟨0, 10, 0, 0, 0, 0⟩ (1/2) _
    (by norm_num) (by norm_num) (predict_fallback_eq (initState "m") ⟨0, 10, 0, 0, 0, 0⟩ (1/2))

/-- Claim C10: with the same bundle and the same feature vector, two
predict_sla_violation calls that differ only in the pseudo-random draw
return the same prediction label and the same probability (only the
confidence depends on the draw). -/
theorem C10_determinism (st : PredState) (f : Features) (r1 r2 : ℚ)
    (res1 res2 : SLAResult)
    (h1 : predict_sla_violation st f r1 = .ok res1)
    (h2 : predict_sla_violation st f r2 = .ok res2) :
    res1.prediction = res2.prediction ∧ res1.probability = res2.probability := by
  unfold predict_sla_violation at h1 h2
  repeat' split at h1
  all_goals repeat' split at h2
  all_goals try simp_all
  all_goals (rw [← h1, ← h2]; exact ⟨rfl, rfl⟩)

/-- Claim C10, witness: the fallback bundle at (0,10,0,0,11,0) with
draws 0 and 1/2. -/
theorem C10_witness :
    ∃ res1 res2 : SLAResult,
      predict_sla_violation (create_fallback_models (initState "m")) ⟨0, 10, 0, 0, 11, 0⟩ 0 =
        .ok res1 ∧
      predict_sla_violation (create_fallback_models (initState "m")) ⟨0, 10, 0, 0, 11, 0⟩ (1/2) =
        .ok res2 ∧
      res1.prediction = res2.prediction ∧ res1.probability = res2.probability := by
  refine ⟨_, _, predict_fallback_eq (initState "m") ⟨0, 10, 0, 0, 11, 0⟩ 0,
    predict_fallback_eq (initState "m") ⟨0, 10, 0, 0, 11, 0⟩ (1/2), ?_⟩
  exact C10_determinism (create_fallback_models (initState "m")) ⟨0, 10, 0, 0, 11, 0⟩ 0 (1/2) _ _
    (predict_fallback_eq (initState "m") ⟨0, 10, 0, 0, 11, 0⟩ 0)
    (predict_fallback_eq (initState "m") ⟨0, 10, 0, 0, 11, 0⟩ (1/2))

end MLPred

namespace MLPred

/-- Claim C8, counterexample: explain_prediction does not propagate a
prediction-time error.  With a loaded bundle whose SHAP explainer raises
on every input, the call returns the simple default explanation instead
of an error (the except handler at predictor.py lines 268-270). -/
theorem C8_counterexample :
    explain_prediction
      { initState "m" with
        models_loaded := true
        shap := some { shapValuesFn := fun _ => .error (), expectedValue := 0 }
        feature_names := defaultFeatureNames }
      ⟨1, 2, 3, 4, 5, 6⟩ =
      .ok (generate_simple_explanation defaultFeatureNames (Features.toList ⟨1, 2, 3, 4, 5, 6⟩)) ∧
    (Except.ok (generate_simple_explanation defaultFeatureNames (Features.toList ⟨1, 2, 3, 4, 5, 6⟩)) :
      Except PredErr Explanation) ≠ .error .predictionError := by
  constructor
  · rfl
  · exact fun h => Except.noConfusion h

/-- Claim C8, amended: prediction-time errors propagate from
predict_sla_violation and detect_anomaly (the re-raise at lines 199 and
242), but explain_prediction catches any prediction-time error and
returns the simple fallback explanation instead of propagating it. -/
theorem C8_amended :
    (∀ (st : PredState) (m : SLAModelImpl) (f : Features) (r : ℚ),
        st.models_loaded = true → st.sla = some m → m.predictFn f = .error () →
        predict_sla_violation st f r = .error .predictionError) ∧
    (∀ (st : PredState) (m : AnomModelImpl) (f : Features),
        st.models_loaded = true → st.anom = some m → st.scaler = none →
        m.predictFn f = .error () →
        detect_anomaly st f = .error .predictionError) ∧
    (∀ (st : PredState) (ex : ShapModelImpl) (f : Features),
        st.models_loaded = true → st.shap = some ex → ex.shapValuesFn f = .error () →
        explain_prediction st f = .ok (generate_simple_explanation st.feature_names f.toList)) := by
  refine ⟨?_, ?_, ?_⟩
  · intro st m f r hml hs hp
    simp [predict_sla_violation, hml, hs, hp]
  · intro st m f hml ha hsc hp
    simp [detect_anomaly, hml, ha, hsc, hp]
  · intro st ex f hml hsh hp
    simp [explain_prediction, hml, hsh, hp]

/-- Claim C8, witness: concrete loaded bundles whose model methods raise
on every input. -/
theorem C8_witness :
    predict_sla_violation
      { initState "m" with
        models_loaded := true
        sla := some { predictFn := fun _ => .error (), predictProbaFn := none } }
      ⟨0, 0, 0, 0, 0, 0⟩ 0 = .error .predictionError ∧
    detect_anomaly
      { initState "m" with
        models_loaded := true
        anom := some { predictFn := fun _ => .error (), decisionFn := none } }
      ⟨0, 0, 0, 0, 0, 0⟩ = .error .predictionError ∧
    explain_prediction
      { initState "m" with
        models_loaded := true
        shap := some { shapValuesFn := fun _ => .error (), expectedValue := 0 }
        feature_names := defaultFeatureNames }
      ⟨0, 0, 0, 0, 0, 0⟩ =
      .ok (generate_simple_explanation defaultFeatureNames (Features.toList ⟨0, 0, 0, 0, 0, 0⟩)) :=
  ⟨C8_amended.1 _ _ _ 0 rfl rfl rfl,
   C8_amended.2.1 _ _ _ rfl rfl rfl rfl,
   C8_amended.2.2 _ _ _ rfl rfl rfl⟩

end MLPred

namespace MLPred

/-- predict_sla_violation raises the not-loaded ValueError exactly when
the loaded flag is false or the sla_predictor entry is absent
(predictor.py lines 167-168). -/
theorem predict_notLoaded_iff (st : PredState) (f : Features) (r : ℚ) :
    predict_sla_violation st f r = .error .notLoaded ↔
      (st.models_loaded = false ∨ st.sla.isNone = true) := by
  cases hml : st.models_loaded
  · simp [predict_sla_violation, hml]
  · cases hs : st.sla with
    | none => simp [predict_sla_violation, hml, hs]
    | some m =>
      simp only [predict_sla_violation, hml, hs]
      cases hp : m.predictFn f with
      | error e => simp [hp]
      | ok pred =>
        cases hq : m.predictProbaFn with
        | none => simp [hp, hq]
        | some pf =>
          cases hr : pf f with
          | error e => simp [hp, hq, hr]
          | ok pr => simp [hp, hq, hr]

/-- detect_anomaly raises the not-loaded ValueError exactly when the
loaded flag is false or the anomaly_detector entry is absent
(predictor.py lines 203-204). -/
theorem detect_notLoaded_iff (st : PredState) (f : Features) :
    detect_anomaly st f = .error .notLoaded ↔
      (st.models_loaded = false ∨ st.anom.isNone = true) := by
  cases hml : st.models_loaded
  · simp [detect_anomaly, hml]
  · cases ha : st.anom with
    | none => simp [detect_anomaly, hml, ha]
    | some m =>
      simp only [detect_anomaly, hml, ha]
      cases hsc : st.scaler with
      | none =>
        cases hp : m.predictFn f with
        | error e => simp [hsc, hp]
        | ok pred =>
          cases hq : m.decisionFn with
          | none => simp [hsc, hp, hq]
          | some df =>
            cases hr : df f with
            | error e => simp [hsc, hp, hq, hr]
            | ok sc => simp [hsc, hp, hq, hr]
      | some tr =>
        cases ht : tr.transformFn f with
        | error e => simp [hsc, ht]
        | ok scaled =>
          cases hp : m.predictFn scaled with
          | error e => simp [hsc, ht, hp]
          | ok pred =>
            cases hq : m.decisionFn with
            | none => simp [hsc, ht, hp, hq]
            | some df =>
              cases hr : df scaled with
              | error e => simp [hsc, ht, hp, hq, hr]
              | ok sc => simp [hsc, ht, hp, hq, hr]

/-- explain_prediction raises the not-loaded ValueError exactly when the
loaded flag is false; no model entry is required (the SHAP explainer is
optional, predictor.py lines 246-247 and 251). -/
theorem explain_notLoaded_iff (st : PredState) (f : Features) :
    explain_prediction st f = .error .notLoaded ↔ st.models_loaded = false := by
  cases hml : st.models_loaded
  · simp [explain_prediction, hml]
  · cases hsh : st.shap with
    | none => simp [explain_prediction, hml, hsh]
    | some ex =>
      simp only [explain_prediction, hml, hsh]
      cases hv : ex.shapValuesFn f with
      | error e => simp [hv]
      | ok sv => simp [hv]

end MLPred

namespace MLPred

/-- Claim C4, counterexample: on a disk whose directory exists and whose
only artifact is a trained anomaly_detector.pkl, load_models completes
(models_loaded is true), yet predict_sla_violation still raises the
models-not-loaded ValueError because the sla_predictor entry is absent
from the bundle. -/
theorem C4_counterexample :
    (load_models
        ⟨true, .absent, .absent, .present { predictFn := fun _ => .ok 1, decisionFn := none },
          .absent, .absent⟩
        (initState "m")).models_loaded = true ∧
    predict_sla_violation
      (load_models
        ⟨true, .absent, .absent, .present { predictFn := fun _ => .ok 1, decisionFn := none },
          .absent, .absent⟩
        (initState "m"))
      ⟨0, 0, 0, 0, 0, 0⟩ 0 = .error .notLoaded :=
  ⟨rfl, rfl⟩

/-- Claim C4, amended: each serving method raises the models-not-loaded
error exactly when models_loaded is false or the model it requires is
absent from the bundle (explain_prediction requires none); a completed
fallback load guarantees that none of the three methods raises it, but a
completed trained load with a partial artifact set can still raise it
(see the counterexample). -/
theorem C4_amended :
    (∀ (st : PredState) (f : Features) (r : ℚ),
        (predict_sla_violation st f r = .error .notLoaded ↔
          (st.models_loaded = false ∨ st.sla.isNone = true))) ∧
    (∀ (st : PredState) (f : Features),
        (detect_anomaly st f = .error .notLoaded ↔
          (st.models_loaded = false ∨ st.anom.isNone = true))) ∧
    (∀ (st : PredState) (f : Features),
        (explain_prediction st f = .error .notLoaded ↔ st.models_loaded = false)) ∧
    (∀ (s0 : PredState) (f : Features) (r : ℚ),
        predict_sla_violation (create_fallback_models s0) f r ≠ .error .notLoaded ∧
        detect_anomaly (create_fallback_models s0) f ≠ .error .notLoaded ∧
        explain_prediction (create_fallback_models s0) f ≠ .error .notLoaded) := by
  refine ⟨predict_notLoaded_iff, detect_notLoaded_iff, explain_notLoaded_iff, ?_⟩
  intro s0 f r
  refine ⟨?_, ?_, ?_⟩
  · intro h
    rw [predict_fallback_eq] at h
    exact Except.noConfusion h
  · intro h
    rw [detect_fallback_eq] at h
    exact Except.noConfusion h
  · intro h
    rw [explain_notLoaded_iff] at h
    exact Bool.noConfusion h

/-- Claim C4, witness: the raise-condition equivalence instantiated at a
freshly constructed (unloaded) predictor. -/
theorem C4_witness :
    predict_sla_violation (initState "m") ⟨0, 0, 0, 0, 0, 0⟩ 0 = .error .notLoaded ↔
      ((initState "m").models_loaded = false ∨ (initState "m").sla.isNone = true) :=
  C4_amended.1 (initState "m") ⟨0, 0, 0, 0, 0, 0⟩ 0

end MLPred

namespace MLPred

/-- Claim C5: whenever the model directory is missing, any artifact is
corrupt (a loading exception), or no model file is found, load_models
returns normally (no error propagates: it is a total function here),
installs the Fallback Bank implementations for the SLA predictor, the
anomaly detector and the scaler, and leaves models_loaded true. -/
theorem C5_fallback_degradation (d : Disk) (dir : String)
    (h : d.triggersFallback = true) :
    (load_models d (initState dir)).models_loaded = true ∧
    (load_models d (initState dir)).sla = some fallbackSLAModel ∧
    (load_models d (initState dir)).anom = some fallbackAnomModel ∧
    (load_models d (initState dir)).scaler = some fallbackScalerImpl := by
  obtain ⟨de, fn, sf, af, shf, scf⟩ := d
  cases de
  · exact ⟨rfl, rfl, rfl, rfl⟩
  · cases fn <;> cases sf <;> cases af <;> cases shf <;> cases scf <;>
      first
      | exact ⟨rfl, rfl, rfl, rfl⟩
      | (exfalso
         simp [Disk.triggersFallback, FileSt.isCorrupt, FileSt.isPresent] at h)

/-- Claim C5, witness at a disk whose model directory is missing. -/
theorem C5_witness :
    Disk.triggersFallback ⟨false, .absent, .absent, .absent, .absent, .absent⟩ = true ∧
    ((load_models ⟨false, .absent, .absent, .absent, .absent, .absent⟩
        (initState "m")).models_loaded = true ∧
     (load_models ⟨false, .absent, .absent, .absent, .absent, .absent⟩
        (initState "m")).sla = some fallbackSLAModel ∧
     (load_models ⟨false, .absent, .absent, .absent, .absent, .absent⟩
        (initState "m")).anom = some fallbackAnomModel ∧
     (load_models ⟨false, .absent, .absent, .absent, .absent, .absent⟩
        (initState "m")).scaler = some fallbackScalerImpl) :=
  ⟨rfl, C5_fallback_degradation ⟨false, .absent, .absent, .absent, .absent, .absent⟩ "m" rfl⟩

end MLPred

namespace MLPred

/-- Claim C9, counterexample: with a directory containing only a
feature_names.pkl whose content is not the default list (here ["a"]),
the first load sets feature_names via the empty-models fallback to the
six defaults, but the second load finds the models dict non-empty, skips
the fallback, and keeps the loaded custom names, so get_model_info
differs between one and two loads. -/
theorem C9_counterexample :
    get_model_info
        (load_models ⟨true, .present ["a"], .absent, .absent, .absent, .absent⟩
          (load_models ⟨true, .present ["a"], .absent, .absent, .absent, .absent⟩
            (initState "m"))) ≠
      get_model_info
        (load_models ⟨true, .present ["a"], .absent, .absent, .absent, .absent⟩
          (initState "m")) := by
  intro h
  have hfn := congrArg ModelInfoOut.feature_names h
  simp [get_model_info, load_models, loadFeatureNamesStep, loadSlaStep, loadAnomStep,
    loadShapStep, loadScalerStep, create_fallback_models, insertKey, initState,
    defaultFeatureNames] at hfn

/-- Claim C9, amended: calling load_models twice against the same disk
yields the same models_loaded flag, the same available model names and
the same model directory as calling it once; get_model_info can differ
only in feature_names, in the edge case of a present non-default
feature-names file with no loadable model file (see the
counterexample). -/
theorem C9_amended (d : Disk) (dir : String) :
    (get_model_info (load_models d (load_models d (initState dir)))).models_loaded =
      (get_model_info (load_models d (initState dir))).models_loaded ∧
    (get_model_info (load_models d (load_models d (initState dir)))).available_models =
      (get_model_info (load_models d (initState dir))).available_models ∧
    (get_model_info (load_models d (load_models d (initState dir)))).model_directory =
      (get_model_info (load_models d (initState dir))).model_directory := by
  obtain ⟨de, fn, sf, af, shf, scf⟩ := d
  cases de <;> cases fn <;> cases sf <;> cases af <;> cases shf <;> cases scf <;>
    simp [load_models, loadFeatureNamesStep, loadSlaStep, loadAnomStep, loadShapStep,
      loadScalerStep, create_fallback_models, get_model_info, insertKey, initState]

end MLPred
